import Mathlib

/-!
Verification of the data_from_plot extraction pipeline.

Shallow embedding of the canonical "ultimate/hybrid" pipeline variant:
  * src/modules/data_types.py            (GraphAxis, GraphFrame, AxisCalibration)
  * src/modules/marker_detector_hybrid.py (coordinate mapping, color classifier,
                                           grid curve detection)
  * src/modules/calibrator_ultimate.py   (axis calibration, IQR outlier filter)
  * src/modules/axis_detector.py         (axis detection, frame location)
  * src/modules/graph_extractor_ultimate.py (orchestrator, manual calibration)

Python floats are modelled as exact rationals; machine pixel coordinates as
integers.  OCR, cv2 line/contour primitives and the LAB colour conversion are
external collaborators: their outputs enter the embedding as parameters.
-/

/-- Embeds dataclass AxisCalibration (calibrator_ultimate.py lines 14-20):
min/max value, optional zero position, unit string, symmetry flag. -/
structure AxisCalibration where
  min_value : ℚ
  max_value : ℚ
  zero_position : Option ℚ := none
  unit : String := ""
  is_symmetric : Bool := false
  deriving DecidableEq, Repr

/-- Embeds dataclass GraphFrame (data_types.py lines 31-39): four integer pixel
corners plus width and height. -/
structure GraphFrame where
  top_left : ℤ × ℤ
  top_right : ℤ × ℤ
  bottom_left : ℤ × ℤ
  bottom_right : ℤ × ℤ
  width : ℤ
  height : ℤ
  deriving DecidableEq, Repr

/-- Embeds MarkerDetectorHybrid._pixel_to_real_x (marker_detector_hybrid.py
lines 391-403): piecewise-linear map when the calibration has a zero position,
plain affine map otherwise. -/
def pixelToRealX (normalized_x : ℚ) (calib : AxisCalibration) : ℚ :=
  match calib.zero_position with
  | some zp =>
      if normalized_x < zp then
        calib.min_value * (normalized_x / zp)
      else
        calib.max_value * ((normalized_x - zp) / (1 - zp))
  | none => calib.min_value + normalized_x * (calib.max_value - calib.min_value)

/-- Embeds MarkerDetectorHybrid._pixel_to_real_y (marker_detector_hybrid.py
lines 405-407): always the plain affine map, the zero position is never read. -/
def pixelToRealY (normalized_y : ℚ) (calib : AxisCalibration) : ℚ :=
  calib.min_value + normalized_y * (calib.max_value - calib.min_value)

/-- Embeds the X normalization of MarkerDetectorHybrid._group_by_color
(marker_detector_hybrid.py line 376): (pixel_x - bottom_left.x) / width. -/
def normalizedX (frame : GraphFrame) (px : ℚ) : ℚ :=
  (px - (frame.bottom_left.1 : ℚ)) / (frame.width : ℚ)

/-- Embeds the Y normalization of MarkerDetectorHybrid._group_by_color
(marker_detector_hybrid.py line 377): 1 - (pixel_y - top_left.y) / height. -/
def normalizedY (frame : GraphFrame) (py : ℚ) : ℚ :=
  1 - (py - (frame.top_left.2 : ℚ)) / (frame.height : ℚ)

/-- Modelled from the spec: the inverse of the CoordinateMapper forward X map.
The source provides only the forward map (_pixel_to_real_x); the spec's
round-trip property (spec section 8) composes it with "its inverse", which is
modelled here branch by branch from the spec's forward formulas (negative
values come from the below-zero branch, nonnegative ones from the other). -/
def specInverseX (v : ℚ) (calib : AxisCalibration) : ℚ :=
  match calib.zero_position with
  | some zp =>
      if v < 0 then zp * (v / calib.min_value)
      else zp + (1 - zp) * (v / calib.max_value)
  | none => (v - calib.min_value) / (calib.max_value - calib.min_value)

/-- The calibration calibrate_x_axis produces for the recognized number set
{-1, 1}: range [-1, 1], symmetric, zero position |min|/(max-min) = 1/2. -/
def symCalib : AxisCalibration :=
  { min_value := -1, max_value := 1, zero_position := some (1/2),
    unit := "", is_symmetric := true }

/-- Embeds the saturation computation of MarkerDetectorHybrid._get_color_key
(marker_detector_hybrid.py lines 418-420): (max - min) / max, zero when the
maximum channel is zero. -/
def saturationOf (r g b : ℕ) : ℚ :=
  if 0 < max r (max g b) then
    ((max r (max g b) : ℚ) - (min r (min g b) : ℚ)) / (max r (max g b) : ℚ)
  else 0

/-- Embeds the tail of MarkerDetectorHybrid._get_color_key
(marker_detector_hybrid.py lines 437-449), reached when the saturated-color
branch does not return: dark gray goes to Black, then dominant channel,
then Black. -/
def getColorKeyTail (r g b : ℕ) : String :=
  if 80 ≤ max r (max g b) ∧ max r (max g b) ≤ 150 ∧ saturationOf r g b < 1/5 then
    "Black"
  else if max g b < r then "Red"
  else if max r g < b then "Blue"
  else if max r b < g then "Green"
  else "Black"

/-- Embeds MarkerDetectorHybrid._get_color_key (marker_detector_hybrid.py
lines 409-449): near-black short-circuit, saturation routing by dominant
channel with orange/yellow disambiguation, then the shared tail. -/
def getColorKey (r g b : ℕ) : String :=
  if max r (max g b) < 80 then "Black"
  else if 3/10 < saturationOf r g b then
    if r = max r (max g b) ∧ 130 < r then
      if 100 < g ∧ b < 100 then "Orange" else "Red"
    else if b = max r (max g b) ∧ 130 < b then "Blue"
    else if g = max r (max g b) ∧ 130 < g then
      if 100 < r ∧ b < 100 then "Yellow" else "Green"
    else getColorKeyTail r g b
  else getColorKeyTail r g b

/-- C2: the X mapping is piecewise-linear through min_value*(n/zp) and
max_value*((n-zp)/(1-zp)) when a zero position zp is set, affine
min + n*(max-min) otherwise; the Y mapping is always affine, whatever the
zero position; normalization subtracts the left edge over the width, resp.
one minus top-edge offset over height. -/
theorem coordinateMappingFormulas :
    (∀ n zp mn mx u sym, pixelToRealX n ⟨mn, mx, some zp, u, sym⟩ =
        if n < zp then mn * (n / zp) else mx * ((n - zp) / (1 - zp))) ∧
    (∀ n mn mx u sym, pixelToRealX n ⟨mn, mx, none, u, sym⟩ = mn + n * (mx - mn)) ∧
    (∀ n zp mn mx u sym, pixelToRealY n ⟨mn, mx, zp, u, sym⟩ = mn + n * (mx - mn)) ∧
    (∀ f px, normalizedX f px = (px - (f.bottom_left.1 : ℚ)) / (f.width : ℚ)) ∧
    (∀ f py, normalizedY f py = 1 - (py - (f.top_left.2 : ℚ)) / (f.height : ℚ)) := by
  refine ⟨fun n zp mn mx u sym => rfl, fun n mn mx u sym => rfl,
    fun n zp mn mx u sym => rfl, fun f px => rfl, fun f py => rfl⟩

/-- C3 counterexample: under the symmetric calibration [-1,1] with zero
position 1/2, the forward X map sends both n = 0 and n = 1/2 to the value 0,
so no inverse function recovers every normalized coordinate in [0,1]. -/
theorem roundTripFailsAtZero :
    pixelToRealX 0 symCalib = pixelToRealX (1/2) symCalib ∧ (0 : ℚ) ≠ 1/2 ∧
    ¬ ∃ inv : ℚ → ℚ, ∀ n : ℚ, 0 ≤ n → n ≤ 1 →
        inv (pixelToRealX n symCalib) = n := by
  refine ⟨by norm_num [pixelToRealX, symCalib], by norm_num, ?_⟩
  rintro ⟨inv, hinv⟩
  have h0 := hinv 0 (by norm_num) (by norm_num)
  have h2 := hinv (1/2) (by norm_num) (by norm_num)
  have hfwd : pixelToRealX 0 symCalib = pixelToRealX (1/2) symCalib := by
    norm_num [pixelToRealX, symCalib]
  rw [hfwd, h2] at h0
  norm_num at h0

/-- C3 amended: the round trip forward-then-inverse recovers the normalized
coordinate for every n in (0,1] in zero-crossing mode (for calibrations of the
shape the calibrator produces: min < 0 < max, zero position strictly inside
(0,1)), and for every n in plain-affine mode with min < max; at n = 0 the
zero-crossing forward map collides with n = zero_position (see the
counterexample), so n = 0 is excluded. -/
theorem roundTripAmended :
    (∀ (calib : AxisCalibration) (zp n : ℚ), calib.zero_position = some zp →
        calib.min_value < 0 → 0 < calib.max_value → 0 < zp → zp < 1 →
        0 < n → n ≤ 1 → specInverseX (pixelToRealX n calib) calib = n) ∧
    (∀ (calib : AxisCalibration) (n : ℚ), calib.zero_position = none →
        calib.min_value < calib.max_value →
        specInverseX (pixelToRealX n calib) calib = n) := by
  constructor
  · intro calib zp n hzp hmn hmx hzp0 hzp1 hn0 _
    have hmn' : calib.min_value ≠ 0 := ne_of_lt hmn
    have hmx' : calib.max_value ≠ 0 := ne_of_gt hmx
    have hzpne : zp ≠ 0 := ne_of_gt hzp0
    have h1zp : (0 : ℚ) < 1 - zp := by linarith
    simp only [pixelToRealX, specInverseX, hzp]
    by_cases hlt : n < zp
    · rw [if_pos hlt]
      have hv : calib.min_value * (n / zp) < 0 :=
        mul_neg_of_neg_of_pos hmn (div_pos hn0 hzp0)
      rw [if_pos hv]
      field_simp
      ring
    · rw [if_neg hlt]
      have hge : zp ≤ n := le_of_not_lt hlt
      have hv : (0 : ℚ) ≤ calib.max_value * ((n - zp) / (1 - zp)) := by
        apply mul_nonneg (le_of_lt hmx)
        apply div_nonneg (by linarith) (le_of_lt h1zp)
      rw [if_neg (not_lt.mpr hv)]
      field_simp
      ring
  · intro calib n hnone hlt
    have hne : calib.max_value - calib.min_value ≠ 0 := by
      intro h
      exact absurd hlt (by simp [show calib.max_value = calib.min_value by linarith])
    simp only [pixelToRealX, specInverseX, hnone]
    field_simp

/-- Witness for roundTripAmended at the symmetric calibration [-1,1] with
zero position 1/2 and n = 3/4, and at the plain calibration [0,1] with
n = 1/3. -/
theorem roundTripAmended_witness :
    specInverseX (pixelToRealX (3/4) symCalib) symCalib = 3/4 ∧
    specInverseX (pixelToRealX (1/3) ⟨0, 1, none, "", false⟩)
        ⟨0, 1, none, "", false⟩ = 1/3 :=
  ⟨roundTripAmended.1 symCalib (1/2) (3/4) rfl (by norm_num [symCalib])
      (by norm_num [symCalib]) (by norm_num) (by norm_num) (by norm_num) (by norm_num),
    roundTripAmended.2 ⟨0, 1, none, "", false⟩ (1/3) rfl (by norm_num)⟩

/-- C9: the color classifier is total into the fixed name set, deterministic,
and maps (10,10,10) to Black and (220,20,20) to Red. -/
theorem colorClassifierTotalDeterministic :
    (∀ r g b : ℕ, getColorKey r g b ∈
        (["Red", "Blue", "Green", "Black", "Yellow", "Orange", "Purple"] : List String)) ∧
    (∀ r g b r' g' b' : ℕ, r = r' → g = g' → b = b' →
        getColorKey r g b = getColorKey r' g' b') ∧
    getColorKey 10 10 10 = "Black" ∧ getColorKey 220 20 20 = "Red" := by
  refine ⟨?_, ?_, by norm_num [getColorKey], by norm_num [getColorKey, saturationOf]⟩
  · intro r g b
    unfold getColorKey getColorKeyTail
    split_ifs <;> simp
  · intro r g b r' g' b' hr hg hb
    rw [hr, hg, hb]

/-- Insertion sort, ascending and stable; models python sorted() and the sort
inside np.percentile for rational values. -/
def insertRat (a : ℚ) : List ℚ → List ℚ
  | [] => [a]
  | b :: t => if a ≤ b then a :: b :: t else b :: insertRat a t

/-- Ascending sort of a rational list built from insertRat. -/
def sortRat (xs : List ℚ) : List ℚ := xs.foldr insertRat []

/-- Embeds np.percentile with its default linear interpolation, as invoked by
AxisCalibratorUltimate._remove_outliers (calibrator_ultimate.py lines 292-293):
sort, take position p*(n-1)/100, interpolate between the neighbouring ranks. -/
def percentile (p : ℚ) (xs : List ℚ) : ℚ :=
  let s := sortRat xs
  let pos := p * ((s.length : ℚ) - 1) / 100
  let i := (Int.floor pos).toNat
  let frac := pos - ((Int.floor pos : ℤ) : ℚ)
  if i + 1 < s.length then s.getD i 0 + frac * (s.getD (i + 1) 0 - s.getD i 0)
  else s.getD i 0

/-- Embeds AxisCalibratorUltimate._remove_outliers (calibrator_ultimate.py
lines 287-302): lists shorter than 4 pass through; otherwise values outside
[Q1 - 3*IQR, Q3 + 3*IQR] are dropped, and if everything was dropped the
unfiltered list is returned. -/
def removeOutliers (numbers : List ℚ) : List ℚ :=
  if numbers.length < 4 then numbers
  else
    let q1 := percentile 25 numbers
    let q3 := percentile 75 numbers
    let iqr := q3 - q1
    let lower := q1 - 3 * iqr
    let upper := q3 + 3 * iqr
    let filtered := numbers.filter (fun n => lower ≤ n ∧ n ≤ upper)
    if filtered = [] then numbers else filtered

/-- Minimum of a rational list, python min(): 0 on the empty list (python
would raise there; calibrate only calls it on nonempty lists). -/
def listMin : List ℚ → ℚ
  | [] => 0
  | h :: t => t.foldl min h

/-- Maximum of a rational list, python max(): 0 on the empty list. -/
def listMax : List ℚ → ℚ
  | [] => 0
  | h :: t => t.foldl max h

/-- Embeds python sorted(set(xs)): distinct values in ascending order. -/
def dedupSort (xs : List ℚ) : List ℚ := sortRat xs.dedup

/-- Embeds AxisCalibratorUltimate.calibrate_x_axis (calibrator_ultimate.py
lines 31-79) as a function of the numbers extracted by OCR (the image and OCR
engine are external): with at least 2 numbers, range = [min, max], symmetric
when both signs occur, zero position |min|/(max-min) when min < 0 < max else
0.5 when merely symmetric; otherwise the degraded [0,1] default. -/
def xCalibrateFromNumbers (numbers : List ℚ) : AxisCalibration :=
  if 2 ≤ numbers.length then
    let u := dedupSort numbers
    let min_val := listMin u
    let max_val := listMax u
    let has_negative := u.any (fun n => n < 0)
    let has_positive := u.any (fun n => 0 < n)
    let is_symmetric := has_negative && has_positive
    let zero_pos : Option ℚ :=
      if 0 ∈ u ∨ is_symmetric = true then
        if min_val < 0 ∧ 0 < max_val then some (|min_val| / (max_val - min_val))
        else if is_symmetric = true then some (1/2)
        else none
      else none
    ⟨min_val, max_val, zero_pos, "", is_symmetric⟩
  else ⟨0, 1, none, "", false⟩

/-- Embeds AxisCalibratorUltimate.calibrate_y_axis (calibrator_ultimate.py
lines 81-117) as a function of the numbers extracted by OCR: numbers outside
[0, 200] are dropped first, then with at least 2 survivors the range is
[min, max] with no zero position and no symmetry flag; otherwise the degraded
[0,1] default. -/
def yCalibrateFromNumbers (numbers : List ℚ) : AxisCalibration :=
  let kept := numbers.filter (fun n => 0 ≤ n ∧ n ≤ 200)
  if 2 ≤ kept.length then
    let u := dedupSort kept
    ⟨listMin u, listMax u, none, "", false⟩
  else ⟨0, 1, none, "", false⟩

/-- Embeds the sanity filter of AxisCalibratorUltimate._parse_numbers
(calibrator_ultimate.py line 262): a recognized token survives exactly when
-10000 < n < 100000; the raw token values are external OCR output. -/
def parseSanityFilter (raw : List ℚ) : List ℚ :=
  raw.filter (fun n => -10000 < n ∧ n < 100000)

/-- One extracted data point as stored in the data_points dict of
GraphExtractorUltimate: calibrated x, y and the marker type tag. -/
structure DataEntry where
  x : ℚ
  y : ℚ
  type : String
  deriving DecidableEq, Repr

/-- The mutable state of GraphExtractorUltimate that set_manual_calibration
touches (graph_extractor_ultimate.py lines 42-45): optional frame, the two
optional calibrations, and the series-keyed data points. -/
structure ExtractorState where
  frame : Option GraphFrame
  x_calibration : Option AxisCalibration
  y_calibration : Option AxisCalibration
  data_points : List (String × List DataEntry)
  deriving DecidableEq, Repr

/-- Embeds GraphExtractorUltimate._recalculate_points
(graph_extractor_ultimate.py lines 126-149): returns unchanged when there are
no points or no frame; otherwise rebuilds the series dict appending every
existing point as it is (the source keeps no pixel coordinates, so the loop
body is new_points.append(pt)). -/
def recalculatePoints (st : ExtractorState) : ExtractorState :=
  if st.data_points = [] ∨ st.frame = none then st
  else { st with data_points := st.data_points.map (fun s => (s.1, s.2.map (fun pt => pt))) }

/-- Embeds GraphExtractorUltimate.set_manual_calibration
(graph_extractor_ultimate.py lines 112-124): replaces both calibrations with
plain AxisCalibration(min, max) values, unvalidated, then recalculates when
points and a frame exist. -/
def setManualCalibration (st : ExtractorState) (x_min x_max y_min y_max : ℚ) :
    ExtractorState :=
  let st1 := { st with
    x_calibration := some ⟨x_min, x_max, none, "", false⟩,
    y_calibration := some ⟨y_min, y_max, none, "", false⟩ }
  if st1.data_points ≠ [] ∧ st1.frame ≠ none then recalculatePoints st1 else st1

/-- A 100x100 frame anchored at the origin, as find_frame would produce for a
clean synthetic image. -/
def demoFrame : GraphFrame :=
  { top_left := (0, 0), top_right := (100, 0), bottom_left := (0, 100),
    bottom_right := (100, 100), width := 100, height := 100 }

/-- An extraction state after process(): detected frame, degraded [0,1]
calibrations on both axes, and one red curve point recorded as (1/2, 1/2),
coming from pixel (50, 50) of demoFrame. -/
def preState : ExtractorState :=
  { frame := some demoFrame,
    x_calibration := some ⟨0, 1, none, "", false⟩,
    y_calibration := some ⟨0, 1, none, "", false⟩,
    data_points := [("Red_line", [⟨1/2, 1/2, "curve"⟩])] }

/-- foldl over min stays below foldl over max when the seeds are ordered. -/
theorem foldlMin_le_foldlMax (t : List ℚ) :
    ∀ a b : ℚ, a ≤ b → t.foldl min a ≤ t.foldl max b := by
  induction t with
  | nil => intro a b h; simpa using h
  | cons c t ih =>
      intro a b h
      simp only [List.foldl_cons]
      exact ih _ _ (le_trans (min_le_left a c) (le_trans h (le_max_left b c)))

/-- The list minimum never exceeds the list maximum. -/
theorem listMin_le_listMax (u : List ℚ) : listMin u ≤ listMax u := by
  cases u with
  | nil => simp [listMin, listMax]
  | cons h t => exact foldlMin_le_foldlMax t h h le_rfl

/-- The sorted [1,2,3,4,100] is itself. -/
theorem sortRatDemo : sortRat [1, 2, 3, 4, 100] = [1, 2, 3, 4, 100] := by
  norm_num [sortRat, insertRat]

/-- Q1 of [1,2,3,4,100] under linear interpolation is 2. -/
theorem percentile25Demo : percentile 25 [1, 2, 3, 4, 100] = 2 := by
  simp only [percentile, sortRatDemo, List.length_cons, List.length_nil]
  norm_num

/-- Q3 of [1,2,3,4,100] under linear interpolation is 4. -/
theorem percentile75Demo : percentile 75 [1, 2, 3, 4, 100] = 4 := by
  simp only [percentile, sortRatDemo, List.length_cons, List.length_nil]
  norm_num
  rfl

/-- C6: the IQR outlier filter on [1,2,3,4,100] drops 100, the one value
outside [Q1 - 3*IQR, Q3 + 3*IQR] = [-4, 10], keeping [1,2,3,4]; and on every
non-empty input it returns a non-empty list (short lists pass through, total
rejection returns the unfiltered input). -/
theorem iqrFilterDropsOutlierNeverEmpties :
    removeOutliers [1, 2, 3, 4, 100] = [1, 2, 3, 4] ∧
    ∀ xs : List ℚ, xs ≠ [] → removeOutliers xs ≠ [] := by
  constructor
  · simp only [removeOutliers, percentile25Demo, percentile75Demo,
      List.length_cons, List.length_nil]
    norm_num [List.filter]
    simp
  · intro xs hne
    simp only [removeOutliers]
    split_ifs with h1 h2
    · exact hne
    · exact hne
    · exact h2

/-- Witness for the non-emptiness half of the IQR filter claim at the
concrete input [1,2,3,4,100]. -/
theorem iqrFilterDropsOutlierNeverEmpties_witness :
    removeOutliers [1, 2, 3, 4, 100] ≠ [] :=
  iqrFilterDropsOutlierNeverEmpties.2 [1, 2, 3, 4, 100] (by simp)

/-- C7 counterexample: set_manual_calibration stores caller values without any
validation, so x_min = 1, x_max = 0 installs an X calibration whose min_value
exceeds its max_value. -/
theorem manualCalibrationViolatesInvariant :
    (setManualCalibration preState 1 0 0 1).x_calibration =
      some ⟨1, 0, none, "", false⟩ ∧ ¬ ((1 : ℚ) ≤ 0) := by
  constructor
  · simp [setManualCalibration, recalculatePoints, preState]
  · norm_num

/-- C7 amended: every calibration the calibrator itself produces (X-axis,
Y-axis, and the degraded [0,1] default) satisfies min_value ≤ max_value with
zero_position in [0,1] whenever present; a caller-supplied manual calibration
is stored unvalidated, so it satisfies the invariant only when the supplied
bounds are ordered. -/
theorem calibrationInvariantAmended :
    (∀ nums : List ℚ,
        (xCalibrateFromNumbers nums).min_value ≤ (xCalibrateFromNumbers nums).max_value ∧
        ∀ zp, (xCalibrateFromNumbers nums).zero_position = some zp → 0 ≤ zp ∧ zp ≤ 1) ∧
    (∀ nums : List ℚ,
        (yCalibrateFromNumbers nums).min_value ≤ (yCalibrateFromNumbers nums).max_value ∧
        ∀ zp, (yCalibrateFromNumbers nums).zero_position = some zp → 0 ≤ zp ∧ zp ≤ 1) ∧
    (∀ st x_min x_max y_min y_max, x_min ≤ x_max → y_min ≤ y_max →
        ∀ cal : AxisCalibration,
          ((setManualCalibration st x_min x_max y_min y_max).x_calibration = some cal ∨
           (setManualCalibration st x_min x_max y_min y_max).y_calibration = some cal) →
          cal.min_value ≤ cal.max_value ∧
          ∀ zp, cal.zero_position = some zp → 0 ≤ zp ∧ zp ≤ 1) := by
  refine ⟨?_, ?_, ?_⟩
  · intro nums
    simp only [xCalibrateFromNumbers]
    split_ifs with h1 h2 h3 h4
    · refine ⟨listMin_le_listMax _, ?_⟩
      intro zp hzp
      obtain ⟨hd1, hd2⟩ := h3
      simp only [Option.some.injEq] at hzp
      subst hzp
      constructor
      · exact div_nonneg (abs_nonneg _) (by linarith)
      · rw [div_le_one (by linarith), abs_of_neg hd1]
        linarith
    · refine ⟨listMin_le_listMax _, ?_⟩
      intro zp hzp
      simp only [Option.some.injEq] at hzp
      subst hzp
      norm_num
    · exact ⟨listMin_le_listMax _, fun zp hzp => by simp at hzp⟩
    · exact ⟨listMin_le_listMax _, fun zp hzp => by simp at hzp⟩
    · exact ⟨show (0 : ℚ) ≤ 1 by norm_num, fun zp hzp => by simp at hzp⟩
  · intro nums
    simp only [yCalibrateFromNumbers]
    split_ifs with h1
    · exact ⟨listMin_le_listMax _, fun zp hzp => by simp at hzp⟩
    · exact ⟨show (0 : ℚ) ≤ 1 by norm_num, fun zp hzp => by simp at hzp⟩
  · intro st x_min x_max y_min y_max hx hy cal hcal
    simp only [setManualCalibration, recalculatePoints] at hcal
    split_ifs at hcal <;>
      rcases hcal with h | h <;>
        (simp only [Option.some.injEq] at h; subst h) <;>
          exact ⟨by assumption, by intro zp hzp; simp at hzp⟩

/-- Witness for calibrationInvariantAmended: the X calibration computed from
the recognized numbers {-1, 1} has zero position 1/2 inside [0,1], and a
manual calibration with ordered bounds 0 ≤ 1 keeps the invariant. -/
theorem calibrationInvariantAmended_witness :
    ((0 : ℚ) ≤ 1/2 ∧ (1/2 : ℚ) ≤ 1) ∧
    ((0 : ℚ) ≤ 1 ∧ ∀ zp : ℚ, (none : Option ℚ) = some zp → 0 ≤ zp ∧ zp ≤ 1) :=
  ⟨(calibrationInvariantAmended.1 [-1, 1]).2 (1/2)
      (by norm_num [xCalibrateFromNumbers, dedupSort, sortRat, insertRat,
        listMin, listMax, List.dedup_cons_of_not_mem, List.dedup_nil]),
    calibrationInvariantAmended.2.2 preState 0 1 0 1 (by norm_num) (by norm_num)
      ⟨0, 1, none, "", false⟩
      (Or.inl (by simp [setManualCalibration, recalculatePoints, preState]))⟩

/-- C10: Y-axis calibration keeps only numbers in [0, 200] before the
two-number check (so labels all above 200 or all negative degrade to the
[0,1] default even though OCR recognized them), its result never has a zero
position nor the symmetry flag, while the parser's sanity filter - the only
range restriction on the X axis - keeps exactly the tokens in
(-10000, 100000), and the X calibrator accepts 300 and 500 unfiltered. -/
theorem yCalibrationRangeQuirk :
    (∀ nums : List ℚ, (yCalibrateFromNumbers nums).zero_position = none ∧
        (yCalibrateFromNumbers nums).is_symmetric = false) ∧
    (∀ nums : List ℚ, (∀ n ∈ nums, 200 < n ∨ n < 0) →
        yCalibrateFromNumbers nums = ⟨0, 1, none, "", false⟩) ∧
    (∀ raw : List ℚ, ∀ n : ℚ,
        n ∈ parseSanityFilter raw ↔ n ∈ raw ∧ (-10000 < n ∧ n < 100000)) ∧
    xCalibrateFromNumbers [300, 500] = ⟨300, 500, none, "", false⟩ := by
  refine ⟨?_, ?_, ?_, ?_⟩
  · intro nums
    simp only [yCalibrateFromNumbers]
    split_ifs <;> exact ⟨rfl, rfl⟩
  · intro nums hall
    simp only [yCalibrateFromNumbers]
    have hfil : nums.filter (fun n => decide (0 ≤ n ∧ n ≤ 200)) = [] := by
      rw [List.filter_eq_nil_iff]
      intro a ha
      rcases hall a ha with h | h <;> simp <;> intro h0 <;> linarith
    rw [hfil]
    norm_num
  · intro raw n
    simp [parseSanityFilter, List.mem_filter]
  · norm_num [xCalibrateFromNumbers, dedupSort, sortRat, insertRat,
      listMin, listMax, List.dedup_cons_of_not_mem, List.dedup_nil]

/-- Witness for yCalibrationRangeQuirk: the Y numbers {300, 500}, all above
200, degrade to the [0,1] default. -/
theorem yCalibrationRangeQuirk_witness :
    yCalibrateFromNumbers [300, 500] = ⟨0, 1, none, "", false⟩ :=
  yCalibrationRangeQuirk.2.1 [300, 500] (by norm_num)

/-- C1 (code-bug evidence): applying manual calibration [0,10] x [0,100] to a
state holding one curve point recorded as (1/2, 1/2) under the old degraded
[0,1] x [0,1] calibration replaces both calibrations but leaves the stored
data values untouched, although remapping the point's pixel position (50,50)
inside the 100x100 frame under the manual calibration yields (5, 50). -/
theorem manualCalibrationDoesNotRemapPoints :
    (setManualCalibration preState 0 10 0 100).data_points = preState.data_points ∧
    (setManualCalibration preState 0 10 0 100).x_calibration =
      some ⟨0, 10, none, "", false⟩ ∧
    (setManualCalibration preState 0 10 0 100).y_calibration =
      some ⟨0, 100, none, "", false⟩ ∧
    pixelToRealX (normalizedX demoFrame 50) ⟨0, 10, none, "", false⟩ = 5 ∧
    pixelToRealY (normalizedY demoFrame 50) ⟨0, 100, none, "", false⟩ = 50 ∧
    (1 : ℚ) / 2 ≠ 5 ∧ (1 : ℚ) / 2 ≠ 50 := by
  refine ⟨?_, ?_, ?_, ?_, ?_, by norm_num, by norm_num⟩
  · simp [setManualCalibration, recalculatePoints, preState]
  · simp [setManualCalibration, recalculatePoints, preState]
  · simp [setManualCalibration, recalculatePoints, preState]
  · norm_num [pixelToRealX, normalizedX, demoFrame]
  · norm_num [pixelToRealY, normalizedY, demoFrame]

/-- Embeds dataclass GraphAxis (data_types.py lines 17-28): integer endpoint
pixels and the orientation flag. -/
structure GraphAxis where
  x1 : ℤ
  y1 : ℤ
  x2 : ℤ
  y2 : ℤ
  is_horizontal : Bool
  deriving DecidableEq, Repr

/-- Squared length of an axis segment. GraphAxis.length in data_types.py is
the square root; every comparison of lengths in the source is monotone in the
square, so merging compares squared lengths, an exact reformulation. -/
def len2 (a : GraphAxis) : ℤ := (a.x2 - a.x1) ^ 2 + (a.y2 - a.y1) ^ 2

/-- One raw segment as returned by the external cv2.HoughLinesP detector. -/
structure RawLine where
  x1 : ℤ
  y1 : ℤ
  x2 : ℤ
  y2 : ℤ
  deriving DecidableEq, Repr

/-- numpy arctan2 over exact reals (the source computes angles in floating
point; the exact real value is the faithful idealization). -/
noncomputable def atan2 (y x : ℝ) : ℝ :=
  if 0 < x then Real.arctan (y / x)
  else if x < 0 then
    (if 0 ≤ y then Real.arctan (y / x) + Real.pi else Real.arctan (y / x) - Real.pi)
  else if 0 < y then Real.pi / 2
  else if y < 0 then -(Real.pi / 2)
  else 0

/-- The absolute angle in degrees of a raw segment,
np.abs(np.degrees(np.arctan2(dy, dx))) (axis_detector.py line 66). -/
noncomputable def angleDeg (l : RawLine) : ℝ :=
  |atan2 ((l.y2 - l.y1 : ℤ) : ℝ) ((l.x2 - l.x1 : ℤ) : ℝ) * (180 / Real.pi)|

/-- The euclidean length of a raw segment (axis_detector.py line 67). -/
noncomputable def segLen (l : RawLine) : ℝ :=
  Real.sqrt ((((l.x2 - l.x1 : ℤ) : ℝ)) ^ 2 + (((l.y2 - l.y1 : ℤ) : ℝ)) ^ 2)

/-- The horizontal test of _categorize_lines (axis_detector.py line 70):
angle within 5 degrees of 0 or 180, length above half the image width. -/
def isHorizSeg (w : ℕ) (l : RawLine) : Prop :=
  (angleDeg l < 5 ∨ 175 < angleDeg l) ∧ (1 / 2 : ℝ) * w < segLen l

/-- The vertical test of _categorize_lines (axis_detector.py line 74),
reached only when the horizontal test failed: angle within 5 degrees of 90,
length above half the image height. -/
def isVertSeg (h : ℕ) (l : RawLine) : Prop :=
  85 < angleDeg l ∧ angleDeg l < 95 ∧ (1 / 2 : ℝ) * h < segLen l

open Classical in
/-- Embeds AxisDetector._categorize_lines (axis_detector.py lines 60-77):
each raw segment goes to the horizontal list, else the vertical list, else is
dropped, in input order. -/
noncomputable def categorizeLines (w h : ℕ) :
    List RawLine → List GraphAxis × List GraphAxis
  | [] => ([], [])
  | l :: rest =>
      let p := categorizeLines w h rest
      if isHorizSeg w l then (⟨l.x1, l.y1, l.x2, l.y2, true⟩ :: p.1, p.2)
      else if isVertSeg h l then (p.1, ⟨l.x1, l.y1, l.x2, l.y2, false⟩ :: p.2)
      else p

/-- The sort key of _merge_similar_axes (axis_detector.py lines 85-88): the
mean of the two y coordinates for horizontal axes, of the two x coordinates
for vertical ones. -/
def axisCenter (is_horizontal : Bool) (a : GraphAxis) : ℚ :=
  if is_horizontal then ((a.y1 : ℚ) + (a.y2 : ℚ)) / 2
  else ((a.x1 : ℚ) + (a.x2 : ℚ)) / 2

/-- Stable ascending insertion by key, modelling python list.sort(key=...). -/
def insertAxisBy (key : GraphAxis → ℚ) (a : GraphAxis) :
    List GraphAxis → List GraphAxis
  | [] => [a]
  | b :: t => if key a ≤ key b then a :: b :: t else b :: insertAxisBy key a t

/-- Stable ascending sort by key, modelling python list.sort(key=...). -/
def sortAxesBy (key : GraphAxis → ℚ) (xs : List GraphAxis) : List GraphAxis :=
  xs.foldr (insertAxisBy key) []

/-- The walk of _merge_similar_axes (axis_detector.py lines 90-107): compare
each sorted axis with the last kept one; centers closer than the threshold 10
keep whichever axis is longer, otherwise a new group starts. -/
def mergeLoop (key : GraphAxis → ℚ) (last : GraphAxis) :
    List GraphAxis → List GraphAxis
  | [] => [last]
  | a :: rest =>
      if |key a - key last| < 10 then
        mergeLoop key (if len2 last < len2 a then a else last) rest
      else last :: mergeLoop key a rest

/-- Embeds AxisDetector._merge_similar_axes (axis_detector.py lines 79-107)
with its default threshold 10. -/
def mergeSimilarAxes (axes : List GraphAxis) (is_horizontal : Bool) :
    List GraphAxis :=
  match sortAxesBy (axisCenter is_horizontal) axes with
  | [] => []
  | a :: rest => mergeLoop (axisCenter is_horizontal) a rest

/-- Embeds AxisDetector._use_image_borders (axis_detector.py lines 109-116):
margin int(0.1*min(h,w)) - an exact floor here - then one horizontal axis
along the bottom inset and one vertical axis along the left inset. -/
def useImageBorders (h w : ℕ) : List GraphAxis :=
  let margin : ℤ := ((min h w) / 10 : ℕ)
  [⟨margin, (h : ℤ) - margin, (w : ℤ) - margin, (h : ℤ) - margin, true⟩,
   ⟨margin, margin, margin, (h : ℤ) - margin, false⟩]

/-- Embeds AxisDetector.detect_axes (axis_detector.py lines 21-58) as a
function of the three Hough strategy outputs (cv2 is the external detector):
the union of the three, the border fallback exactly when that union is empty,
otherwise categorize then merge per orientation. -/
noncomputable def detectAxes (h w : ℕ) (lines1 lines2 lines3 : List RawLine) :
    List GraphAxis :=
  let all_lines := lines1 ++ lines2 ++ lines3
  if all_lines = [] then useImageBorders h w
  else
    let p := categorizeLines w h all_lines
    mergeSimilarAxes p.1 true ++ mergeSimilarAxes p.2 false

/-- Placeholder axis for the guarded list accesses of find_frame; under the
length guards of the source the default is never selected. -/
def defaultAxis : GraphAxis := ⟨0, 0, 0, 0, true⟩

/-- Embeds AxisDetector.find_frame (axis_detector.py lines 118-159): with two
of each orientation, the two topmost horizontal axes and the outermost
vertical axes bound the frame; with at least one of each a partial frame uses
image-relative margins; otherwise None. -/
def findFrame (h w : ℕ) (axes : List GraphAxis) : Option GraphFrame :=
  let h_axes := axes.filter (fun a => a.is_horizontal)
  let v_axes := axes.filter (fun a => !a.is_horizontal)
  if 2 ≤ h_axes.length ∧ 2 ≤ v_axes.length then
    let hs := sortAxesBy (fun a => ((min a.y1 a.y2 : ℤ) : ℚ)) h_axes
    let vs := sortAxesBy (fun a => ((min a.x1 a.x2 : ℤ) : ℚ)) v_axes
    let h_top := hs.getD 0 defaultAxis
    let h_bottom := hs.getD 1 h_top
    let v_first := vs.getD 0 defaultAxis
    let v_last := vs.getLast?.getD defaultAxis
    let left := min v_first.x1 v_first.x2
    let right := max v_last.x1 v_last.x2
    let top := min h_top.y1 h_top.y2
    let bottom := max h_bottom.y1 h_bottom.y2
    some ⟨(left, top), (right, top), (left, bottom), (right, bottom),
      right - left, bottom - top⟩
  else if 1 ≤ h_axes.length ∧ 1 ≤ v_axes.length then
    let h_ax := h_axes.getLast?.getD defaultAxis
    let v_ax := v_axes.getD 0 defaultAxis
    let left := min v_ax.x1 v_ax.x2
    let top : ℤ := (h / 10 : ℕ)
    let right : ℤ := (9 * w / 10 : ℕ)
    let bottom := max h_ax.y1 h_ax.y2
    some ⟨(left, top), (right, top), (left, bottom), (right, bottom),
      right - left, bottom - top⟩
  else none

/-- Embeds the frame step of GraphExtractorUltimate.process
(graph_extractor_ultimate.py lines 62-66): the pipeline raises exactly when
find_frame returns None, and this is its only abort. -/
def processFrameStep (h w : ℕ) (axes : List GraphAxis) : Except String GraphFrame :=
  match findFrame h w axes with
  | some f => Except.ok f
  | none => Except.error "frame detection failed"

/-- Embeds the stage sequencing of GraphExtractorUltimate.process
(graph_extractor_ultimate.py lines 56-104) over the embedded stages: the
frame check is the only raise; calibration (modelled over its OCR numbers)
and detection are total, matching the degraded-not-fatal design. -/
def processPipeline (h w : ℕ) (axes : List GraphAxis) (xnums ynums : List ℚ) :
    Except String (GraphFrame × AxisCalibration × AxisCalibration) :=
  match findFrame h w axes with
  | none => Except.error "frame detection failed"
  | some f => Except.ok (f, xCalibrateFromNumbers xnums, yCalibrateFromNumbers ynums)

/-- A nonempty filter has a member matching the predicate, stated through
the filtered length. -/
theorem existsMemFilterLen (p : GraphAxis → Bool) (axes : List GraphAxis) :
    (∃ a ∈ axes, p a = true) ↔ 1 ≤ (axes.filter p).length := by
  constructor
  · rintro ⟨a, ha, hp⟩
    exact List.length_pos.mpr (List.ne_nil_of_mem (List.mem_filter.mpr ⟨ha, hp⟩))
  · intro hlen
    have hne : axes.filter p ≠ [] := by
      intro hnil
      rw [hnil] at hlen
      simp at hlen
    obtain ⟨a, ha⟩ := List.exists_mem_of_ne_nil _ hne
    exact ⟨a, (List.mem_filter.mp ha).1, (List.mem_filter.mp ha).2⟩

/-- C4: find_frame yields a frame exactly when the axis list holds at least
one horizontal and at least one vertical axis; the orchestrator's frame step
errors exactly when find_frame yields none, and the embedded pipeline with
its total calibration stages aborts in exactly that case and no other. -/
theorem findFrameIffBothOrientations :
    ∀ (h w : ℕ) (axes : List GraphAxis),
      ((findFrame h w axes).isSome ↔
        ((∃ a ∈ axes, a.is_horizontal = true) ∧ (∃ a ∈ axes, a.is_horizontal = false))) ∧
      ((∃ e, processFrameStep h w axes = Except.error e) ↔
        findFrame h w axes = none) ∧
      (∀ xnums ynums : List ℚ,
        (∃ e, processPipeline h w axes xnums ynums = Except.error e) ↔
          findFrame h w axes = none) := by
  intro h w axes
  refine ⟨?_, ?_, ?_⟩
  rotate_left
  · cases hf : findFrame h w axes
    · simp [processFrameStep, hf]
    · simp [processFrameStep, hf]
  · intro xnums ynums
    cases hf : findFrame h w axes
    · simp [processPipeline, hf]
    · simp [processPipeline, hf]
  have hH := existsMemFilterLen (fun a => a.is_horizontal) axes
  have hV :
      (∃ a ∈ axes, a.is_horizontal = false) ↔
        1 ≤ (axes.filter (fun a => !a.is_horizontal)).length := by
    rw [← existsMemFilterLen (fun a => !a.is_horizontal) axes]
    simp [Bool.not_eq_true']
  simp only [findFrame]
  split_ifs with hc1 hc2
  · refine ⟨fun _ => ⟨hH.mpr ?_, hV.mpr ?_⟩, fun _ => rfl⟩
    · omega
    · omega
  · refine ⟨fun _ => ⟨hH.mpr ?_, hV.mpr ?_⟩, fun _ => rfl⟩
    · omega
    · omega
  · constructor
    · intro hfalse
      simp at hfalse
    · rintro ⟨he1, he2⟩
      exact absurd ⟨hH.mp he1, hV.mp he2⟩ hc2

/-- The diagonal stub (0,0)-(3,3) is too short for either orientation in a
100x100 image: its length sqrt(18) is at most 50. -/
theorem shortStubFailsLength : segLen ⟨0, 0, 3, 3⟩ ≤ 50 := by
  unfold segLen
  have h18 : (((3 : ℤ) - 0 : ℤ) : ℝ) ^ 2 + (((3 : ℤ) - 0 : ℤ) : ℝ) ^ 2 = 18 := by
    norm_num
  rw [h18]
  have hle : Real.sqrt 18 ≤ Real.sqrt 2500 := Real.sqrt_le_sqrt (by norm_num)
  have h2500 : Real.sqrt 2500 = 50 := by
    rw [show (2500 : ℝ) = 50 ^ 2 by norm_num]
    exact Real.sqrt_sq (by norm_num)
  linarith

/-- C5 counterexample: a 100x100 image whose line detectors return one raw
diagonal stub (0,0)-(3,3) skips the border fallback (the raw union is
non-empty) yet the stub survives neither orientation test, so detect_axes
returns the empty list - a result with no horizontal and no vertical axis,
hence no frame to proceed with. -/
theorem detectAxesCanLackBothOrientations :
    detectAxes 100 100 [⟨0, 0, 3, 3⟩] [] [] = [] := by
  have hlen := shortStubFailsLength
  have hh : ¬ isHorizSeg 100 ⟨0, 0, 3, 3⟩ := by
    rintro ⟨-, hgt⟩
    have : ((1 : ℝ) / 2) * (100 : ℕ) = 50 := by push_cast; norm_num
    rw [this] at hgt
    linarith
  have hv : ¬ isVertSeg 100 ⟨0, 0, 3, 3⟩ := by
    rintro ⟨-, -, hgt⟩
    have : ((1 : ℝ) / 2) * (100 : ℕ) = 50 := by push_cast; norm_num
    rw [this] at hgt
    linarith
  have hcat : categorizeLines 100 100 [⟨0, 0, 3, 3⟩] = ([], []) := by
    simp only [categorizeLines]
    rw [if_neg hh, if_neg hv]
  simp [detectAxes, hcat, mergeSimilarAxes, sortAxesBy]

/-- C5 amended: the synthetic border pair - one horizontal axis along the
bottom inset and one vertical along the left inset, both at a margin of 10
percent of the minimum image dimension - is returned exactly on the path
where the three line-detection strategies produced no raw segments at all;
classification runs only after that test, so raw segments that all fail
classification yield an empty axis list instead of the fallback (see the
counterexample). -/
theorem detectAxesBorderFallback :
    ∀ h w : ℕ,
      detectAxes h w [] [] [] = useImageBorders h w ∧
      useImageBorders h w =
        [⟨(((min h w) / 10 : ℕ) : ℤ), (h : ℤ) - (((min h w) / 10 : ℕ) : ℤ),
            (w : ℤ) - (((min h w) / 10 : ℕ) : ℤ), (h : ℤ) - (((min h w) / 10 : ℕ) : ℤ), true⟩,
          ⟨(((min h w) / 10 : ℕ) : ℤ), (((min h w) / 10 : ℕ) : ℤ),
            (((min h w) / 10 : ℕ) : ℤ), (h : ℤ) - (((min h w) / 10 : ℕ) : ℤ), false⟩] := by
  intro h w
  exact ⟨by simp [detectAxes], rfl⟩

/-- A candidate point as produced by MarkerDetectorHybrid (the Point
dataclass of marker_detector_hybrid.py lines 15-20): pixel position, sampled
RGB color, marker type tag. -/
structure MarkerPoint where
  x : ℤ
  y : ℤ
  color : ℕ × ℕ × ℕ
  marker_type : String
  deriving DecidableEq, Repr

/-- Embeds MarkerDetectorHybrid._is_white_or_gray (marker_detector_hybrid.py
lines 347-360): near-white, or bright with all channels within 20 of the
average. -/
def isWhiteOrGray (rgb : ℕ × ℕ × ℕ) : Bool :=
  if 230 < rgb.1 ∧ 230 < rgb.2.1 ∧ 230 < rgb.2.2 then true
  else
    let avg : ℚ := ((rgb.1 : ℚ) + (rgb.2.1 : ℚ) + (rgb.2.2 : ℚ)) / 3
    if 180 < avg ∧
        max |(rgb.1 : ℚ) - avg| (max |(rgb.2.1 : ℚ) - avg| |(rgb.2.2 : ℚ) - avg|) < 20 then
      true
    else false

/-- The row-major pixel scan order of _find_most_colorful_pixel
(marker_detector_hybrid.py lines 249-250). -/
def cellIndices (ch cw : ℕ) : List (ℕ × ℕ) :=
  (List.range ch).flatMap (fun y => (List.range cw).map (fun x => (y, x)))

/-- Embeds MarkerDetectorHybrid._find_most_colorful_pixel
(marker_detector_hybrid.py lines 233-277) with the LAB-based score abstracted
as a parameter (cv2's BGR to LAB conversion is an external floating-point
collaborator): scan the cell in row-major order skipping white/gray pixels,
keep the strictly best score starting from -1, return the winner only when
its score exceeds 10. -/
def findMostColorfulPixel (score : ℕ × ℕ × ℕ → ℚ) (cell : ℕ → ℕ → ℕ × ℕ × ℕ)
    (ch cw : ℕ) : Option (ℕ × ℕ × (ℕ × ℕ × ℕ)) :=
  let best := (cellIndices ch cw).foldl
    (fun acc yx =>
      let c := cell yx.1 yx.2
      if isWhiteOrGray c then acc
      else if acc.1 < score c then (score c, some (yx.1, yx.2, c)) else acc)
    ((-1 : ℚ), (none : Option (ℕ × ℕ × (ℕ × ℕ × ℕ))))
  if 10 < best.1 then best.2 else none

/-- Embeds MarkerDetectorHybrid._detect_curves_grid (marker_detector_hybrid.py
lines 188-231): a grid_size x grid_size partition of the frame interior with
integer cell bounds floor(row*h/G) (the source's int() on nonnegative
values), at most one representative pixel per cell, each emitted tagged
"curve" at its absolute position. -/
def detectCurvesGrid (score : ℕ × ℕ × ℕ → ℚ) (roi : ℕ → ℕ → ℕ × ℕ × ℕ)
    (h w : ℕ) (offset_x offset_y : ℤ) (grid_size : ℕ) : List MarkerPoint :=
  (List.range grid_size).flatMap (fun row =>
    (List.range grid_size).filterMap (fun col =>
      let y1 := row * h / grid_size
      let x1 := col * w / grid_size
      let y2 := (row + 1) * h / grid_size
      let x2 := (col + 1) * w / grid_size
      match findMostColorfulPixel score (fun y x => roi (y1 + y) (x1 + x))
          (y2 - y1) (x2 - x1) with
      | none => none
      | some (rel_y, rel_x, c) =>
          some ⟨offset_x + (x1 : ℤ) + (rel_x : ℤ), offset_y + (y1 : ℤ) + (rel_y : ℤ),
            c, "curve"⟩))

/-- C8: for every grid size G, every frame interior content (any resolution,
any pixel data, any abstracted color score) the grid curve layer emits at
most G*G candidates, each cell contributing at most one, and every emitted
candidate is tagged "curve". -/
theorem gridCurveBound :
    ∀ (score : ℕ × ℕ × ℕ → ℚ) (roi : ℕ → ℕ → ℕ × ℕ × ℕ) (h w : ℕ)
      (ox oy : ℤ) (G : ℕ),
      (detectCurvesGrid score roi h w ox oy G).length ≤ G * G ∧
      ∀ p ∈ detectCurvesGrid score roi h w ox oy G, p.marker_type = "curve" := by
  intro score roi h w ox oy G
  constructor
  · rw [detectCurvesGrid, List.length_flatMap]
    have hbound : ∀ x ∈ (List.range G).map
        (fun row => ((List.range G).filterMap (fun col =>
          match findMostColorfulPixel score
              (fun y x => roi (row * h / G + y) (col * w / G + x))
              ((row + 1) * h / G - row * h / G) ((col + 1) * w / G - col * w / G) with
          | none => none
          | some (rel_y, rel_x, c) =>
              some (⟨ox + (col * w / G : ℕ) + (rel_x : ℤ),
                oy + (row * h / G : ℕ) + (rel_y : ℤ), c, "curve"⟩ : MarkerPoint))).length),
        x ≤ G := by
      intro x hx
      simp only [List.mem_map] at hx
      obtain ⟨row, _, heq⟩ := hx
      rw [← heq]
      exact le_trans (List.length_filterMap_le _ _) (by simp)
    calc ((List.range G).map _).sum ≤ ((List.range G).map _).length • G :=
          List.sum_le_card_nsmul _ G hbound
      _ = G * G := by simp [mul_comm]
  · intro p hp
    simp only [detectCurvesGrid, List.mem_flatMap, List.mem_filterMap] at hp
    obtain ⟨row, _, col, _, hmatch⟩ := hp
    rcases hfm : findMostColorfulPixel score
        (fun y x => roi (row * h / G + y) (col * w / G + x))
        ((row + 1) * h / G - row * h / G) ((col + 1) * w / G - col * w / G) with
      _ | ⟨rel_y, rel_x, c⟩
    · rw [hfm] at hmatch
      simp at hmatch
    · rw [hfm] at hmatch
      simp only [Option.some.injEq] at hmatch
      rw [← hmatch]

/-- Witness for the determinism and totality of the color classifier at the
concrete near-black input (10,10,10). -/
theorem colorClassifierTotalDeterministic_witness :
    getColorKey 10 10 10 = getColorKey 10 10 10 ∧
    getColorKey 10 10 10 ∈
      (["Red", "Blue", "Green", "Black", "Yellow", "Orange", "Purple"] : List String) :=
  ⟨colorClassifierTotalDeterministic.2.1 10 10 10 10 10 10 rfl rfl rfl,
    colorClassifierTotalDeterministic.1 10 10 10⟩

/-- Witness for the grid bound at a concrete 1x1 grid over a one-pixel red
frame interior, where the single cell emits its one curve-tagged point. -/
theorem gridCurveBound_witness :
    (⟨0, 0, (200, 0, 0), "curve"⟩ : MarkerPoint).marker_type = "curve" :=
  (gridCurveBound (fun _ => 20) (fun _ _ => (200, 0, 0)) 1 1 0 0 1).2
    ⟨0, 0, (200, 0, 0), "curve"⟩
    (by
      have hr1 : List.range 1 = [0] := rfl
      have hev : detectCurvesGrid (fun _ => 20) (fun _ _ => (200, 0, 0)) 1 1 0 0 1 =
          [⟨0, 0, (200, 0, 0), "curve"⟩] := by
        norm_num [detectCurvesGrid, findMostColorfulPixel, cellIndices, isWhiteOrGray,
          hr1, List.flatMap_cons, List.flatMap_nil, List.map_cons,
          List.map_nil, List.foldl_cons, List.foldl_nil, List.filterMap_cons,
          List.filterMap_nil]
      rw [hev]
      exact List.mem_singleton.mpr rfl)
